import Mathlib

/-
  Verification of the public-meal-tracker repository core.

  The repository ships the React frontend (frontend/src/App.js,
  frontend/src/AdminPage.js, frontend/src/config.js); the Flask backend
  (backend/app.py) holding the Event Store, Status Deriver, Session Gate,
  Reminder Rate Limiter and Notification Dispatcher is not part of the
  available sources, so those components are modelled from the written
  specification.  Frontend behaviour (the retry_after display default, the
  reminder payload default text) is embedded from the JavaScript sources.

  Time is modelled in whole seconds as Nat; instants are seconds since an
  arbitrary epoch; durations are second counts.
-/

/-- Error taxonomy of the service, as listed in the error-handling design:
StorageError, NotFound, AuthenticationRequired, AuthorizationDenied,
QuotaExceeded (carrying retry_after seconds), DeliveryFailed. -/
inductive ApiError where
  | storageError
  | notFound
  | authenticationRequired
  | authorizationDenied
  | quotaExceeded (retry_after : Nat)
  | deliveryFailed
deriving Repr, DecidableEq

/-- One immutable meal record: opaque ordered id, ate flag, UTC instant. -/
structure MealEvent where
  id : Nat
  ate : Bool
  timestamp : Nat
deriving Repr, DecidableEq

/-- The derived, never-persisted public status view. -/
structure StatusView where
  ate : Bool
  timestamp : Option Nat
  last_meal_timestamp : Option Nat
  status_changed : Bool
  time_since_last_meal : Nat
deriving Repr, DecidableEq

/-- The Event Store state: an ordered log of meal events. -/
structure Store where
  events : List MealEvent
deriving Repr, DecidableEq

/-- Ordering used for most-recent queries: by timestamp, ties broken by id. -/
def newerEvent (a b : MealEvent) : MealEvent :=
  if a.timestamp < b.timestamp ∨ (a.timestamp = b.timestamp ∧ a.id < b.id)
  then b else a

/-- Modelled from the spec: the Event Store latest() lookup of backend/app.py
(not in the available sources); returns the most recent event, ordering by
timestamp with ties broken by id, or absent on an empty store. -/
def latestEvent (s : Store) : Option MealEvent :=
  s.events.foldl
    (fun acc e =>
      match acc with
      | none => some e
      | some a => some (newerEvent a e))
    none

/-- Modelled from the spec: the backend Status Deriver (backend/app.py is not
in the available sources).  Pure function of the latest event and wall-clock
now; autoExpire is AUTO_EXPIRE_HOURS expressed in seconds.  If the latest
event has ate = true and elapsed has reached autoExpire, the view degrades to
not-eaten with status_changed = true and last_meal_timestamp set; the stored
event is never touched. -/
def deriveStatus (autoExpire : Nat) (latest : Option MealEvent) (now : Nat) :
    StatusView :=
  match latest with
  | none =>
      { ate := false, timestamp := none, last_meal_timestamp := none,
        status_changed := false, time_since_last_meal := 0 }
  | some e =>
      let elapsed := now - e.timestamp
      if e.ate = false then
        { ate := false, timestamp := some e.timestamp,
          last_meal_timestamp := none, status_changed := false,
          time_since_last_meal := elapsed }
      else if elapsed < autoExpire then
        { ate := true, timestamp := some e.timestamp,
          last_meal_timestamp := none, status_changed := false,
          time_since_last_meal := elapsed }
      else
        { ate := false, timestamp := some e.timestamp,
          last_meal_timestamp := some e.timestamp, status_changed := true,
          time_since_last_meal := elapsed }

/-- Modelled from the spec: a status read (GET /meals) computes the view from
the latest stored event and returns the store unchanged -- expiry is applied
lazily for display only, never written back. -/
def readStatus (autoExpire : Nat) (s : Store) (now : Nat) :
    StatusView × Store :=
  (deriveStatus autoExpire (latestEvent s) now, s)

/-- A verified identity returned by the external identity provider. -/
structure Identity where
  email : String
  name : String
deriving Repr, DecidableEq

/-- An authenticated-admin session held server-side by the Session Gate. -/
structure Session where
  identity : Identity
  created_at : Nat
  expires_at : Nat
deriving Repr, DecidableEq

/-- Email normalization used by the allow-list policy: case-insensitive,
normalized comparison is realised by lower-casing every character. -/
def normalizeEmail (e : String) : String :=
  String.mk (e.data.map Char.toLower)

/-- Modelled from the spec: the Session Gate completeLogin of backend/app.py
(not in the available sources).  A Session is created only when the verified
email equals, after normalization, the single configured allowed email;
any other verified identity yields AuthorizationDenied, never a session. -/
def completeLogin (allowedEmail : String) (ident : Identity) (now ttl : Nat) :
    Except ApiError Session :=
  if normalizeEmail ident.email = normalizeEmail allowedEmail then
    Except.ok { identity := ident, created_at := now, expires_at := now + ttl }
  else
    Except.error ApiError.authorizationDenied

/-- The Session Gate state: opaque session tokens mapped to live sessions. -/
structure GateState where
  sessions : List (Nat × Session)
deriving Repr, DecidableEq

def lookupSession (g : GateState) (tok : Nat) : Option Session :=
  (g.sessions.find? (fun p => p.1 == tok)).map (fun p => p.2)

/-- Modelled from the spec: the authorization predicate of backend/app.py
(not in the available sources), called by every event-mutating operation; a
missing, unknown or expired token yields AuthenticationRequired. -/
def requireAuthenticated (g : GateState) (tok : Option Nat) (now : Nat) :
    Except ApiError Session :=
  match tok with
  | none => Except.error ApiError.authenticationRequired
  | some t =>
    match lookupSession g t with
    | none => Except.error ApiError.authenticationRequired
    | some s =>
      if now < s.expires_at then Except.ok s
      else Except.error ApiError.authenticationRequired

/-- Modelled from the spec: logout (POST /auth/logout) of backend/app.py (not
in the available sources); destroys the session bound to the token, succeeds
unconditionally. -/
def logout (g : GateState) (tok : Nat) : Except ApiError Unit × GateState :=
  (Except.ok (), { sessions := g.sessions.filter (fun p => p.1 != tok) })

/-- Whole-server state: session gate, event store, next monotonic event id. -/
structure ServerState where
  gate : GateState
  store : Store
  nextId : Nat
deriving Repr, DecidableEq

/-- Modelled from the spec: the Event Store append of backend/app.py (not in
the available sources); an omitted timestamp resolves to the current time,
a caller-supplied one is stored verbatim; a monotonic id is assigned. -/
def appendEvent (st : Store) (nid : Nat) (ate : Bool) (ts : Option Nat)
    (now : Nat) : MealEvent × Store :=
  let e : MealEvent := { id := nid, ate := ate, timestamp := ts.getD now }
  (e, { events := st.events ++ [e] })

/-- Modelled from the spec: POST /meals of backend/app.py (not in the
available sources); checks the session gate first and only then appends,
returning the created event; on a gate failure the state is untouched. -/
def postMeals (s : ServerState) (tok : Option Nat) (now : Nat) (ate : Bool)
    (ts : Option Nat) : Except ApiError MealEvent × ServerState :=
  match requireAuthenticated s.gate tok now with
  | Except.error e => (Except.error e, s)
  | Except.ok _ =>
      (Except.ok (appendEvent s.store s.nextId ate ts now).1,
       { s with store := (appendEvent s.store s.nextId ate ts now).2,
                nextId := s.nextId + 1 })

/-- Modelled from the spec: the Event Store delete-by-id of backend/app.py
(not in the available sources); a present id is removed with success, an
absent id yields NotFound and the store is left exactly as it was. -/
def deleteEvent (st : Store) (id : Nat) : Except ApiError Unit × Store :=
  if st.events.any (fun e => e.id == id) then
    (Except.ok (), { events := st.events.filter (fun e => !(e.id == id)) })
  else
    (Except.error ApiError.notFound, st)

/-- Modelled from the spec: DELETE /meals/id of backend/app.py (not in the
available sources); checks the session gate first, then deletes. -/
def deleteMeals (s : ServerState) (tok : Option Nat) (now : Nat) (id : Nat) :
    Except ApiError Unit × ServerState :=
  match requireAuthenticated s.gate tok now with
  | Except.error e => (Except.error e, s)
  | Except.ok _ =>
      ((deleteEvent s.store id).1,
       { s with store := (deleteEvent s.store id).2 })

/-- Rate limiter configuration: attempts allowed per fixed window, and the
window duration in seconds. -/
structure LimiterConfig where
  limit : Nat
  window : Nat
deriving Repr, DecidableEq

/-- The persisted per-caller window state: start instant and attempt count. -/
structure RateLimitWindow where
  window_start : Nat
  count : Nat
deriving Repr, DecidableEq

/-- Outcome of one rate-limited attempt. -/
inductive AttemptResult where
  | allowed (remaining limit reset_in : Nat)
  | denied (retry_after : Nat)
deriving Repr, DecidableEq

/-- Modelled from the spec: the Reminder Rate Limiter attempt of
backend/app.py (not in the available sources).  Fixed window starting on the
first attempt after the previous window closed; each attempt in the window
increments the count; once the count reaches the limit, further attempts in
the window are denied with retry_after equal to the whole seconds remaining
until the window closes; the window resets lazily on the next attempt. -/
def attempt (cfg : LimiterConfig) (st : Option RateLimitWindow) (now : Nat) :
    AttemptResult × Option RateLimitWindow :=
  match st with
  | none =>
      (AttemptResult.allowed (cfg.limit - 1) cfg.limit cfg.window,
       some { window_start := now, count := 1 })
  | some w =>
      if w.window_start + cfg.window ≤ now then
        (AttemptResult.allowed (cfg.limit - 1) cfg.limit cfg.window,
         some { window_start := now, count := 1 })
      else if w.count < cfg.limit then
        (AttemptResult.allowed (cfg.limit - (w.count + 1)) cfg.limit
           (w.window_start + cfg.window - now),
         some { window_start := w.window_start, count := w.count + 1 })
      else
        (AttemptResult.denied (w.window_start + cfg.window - now), some w)

/-- Sequential application of attempts at the given instants; since the
limiter performs its check-and-increment as one atomic transition, any
interleaving of concurrent attempts is one such sequence. -/
def attemptSeq (cfg : LimiterConfig) (st : Option RateLimitWindow)
    (times : List Nat) : List AttemptResult × Option RateLimitWindow :=
  match times with
  | [] => ([], st)
  | t :: ts =>
      let r := attempt cfg st t
      let rest := attemptSeq cfg r.2 ts
      (r.1 :: rest.1, rest.2)

/-- Number of Allowed outcomes in a list of attempt results. -/
def countAllowed (rs : List AttemptResult) : Nat :=
  rs.countP (fun r =>
    match r with
    | AttemptResult.allowed _ _ _ => true
    | AttemptResult.denied _ => false)

/-- Default reminder text, as in frontend/src/App.js line 45. -/
def defaultReminderText : String := "Time to eat!"

/-- Embedded from frontend/src/App.js line 45: the payload message is the
typed message, with the default text substituted when it is empty (the
JavaScript expression reminderMessage || default). -/
def reminderPayloadMessage (m : String) : String :=
  if m = "" then defaultReminderText else m

/-- Modelled from the spec: message composition in the Notification
Dispatcher of backend/app.py (not in the available sources); an empty
caller message is replaced by the default text. -/
def composeMessage (m : String) : String :=
  if m = "" then defaultReminderText else m

/-- Modelled from the spec: the POST /remind pipeline of backend/app.py (not
in the available sources).  The limiter is consulted first; the dispatcher is
invoked only on Allowed.  The Option String component records the text handed
to the dispatcher (none when the dispatcher was not invoked). -/
def remind (cfg : LimiterConfig) (st : Option RateLimitWindow) (now : Nat)
    (message : Option String) :
    (Except ApiError Unit × Option String) × Option RateLimitWindow :=
  let r := attempt cfg st now
  match r.1 with
  | AttemptResult.denied retry =>
      ((Except.error (ApiError.quotaExceeded retry), none), r.2)
  | AttemptResult.allowed _ _ _ =>
      ((Except.ok (), some (composeMessage (message.getD ""))), r.2)

/-- Embedded from frontend/src/App.js lines 58-61: on an HTTP 429 response
the displayed wait is err.response.data.retry_after || 60 -- the JavaScript
or-operator substitutes 60 when the field is absent or falsy (zero). -/
def displayedRetryAfter (retry_after : Option Nat) : Nat :=
  match retry_after with
  | none => 60
  | some v => if v = 0 then 60 else v

/-- The gate only ever fails with AuthenticationRequired. -/
theorem requireAuthenticated_error_kind (g : GateState) (tok : Option Nat)
    (now : Nat) (e : ApiError)
    (h : requireAuthenticated g tok now = Except.error e) :
    e = ApiError.authenticationRequired := by
  cases tok with
  | none =>
      simp only [requireAuthenticated] at h
      injection h with h
      exact h.symm
  | some t =>
      simp only [requireAuthenticated] at h
      cases hl : lookupSession g t with
      | none =>
          rw [hl] at h
          injection h with h
          exact h.symm
      | some s =>
          simp only [hl] at h
          by_cases hx : now < s.expires_at
          · rw [if_pos hx] at h
            exact Except.noConfusion h
          · rw [if_neg hx] at h
            injection h with h
            exact h.symm

/-- C1: for a stored latest event E with E.ate = true, a status read at time
now reports ate = true with status_changed = false while now - E.timestamp is
below the auto-expiry window, and reports ate = false, status_changed = true,
last_meal_timestamp = E.timestamp and time_since_last_meal = now - E.timestamp
once the window is reached; the read leaves the store unchanged. -/
theorem statusDeriver_autoExpire_spec (W : Nat) (s : Store) (E : MealEvent)
    (now : Nat) (hE : latestEvent s = some E) (hate : E.ate = true) :
    ((readStatus W s now).2 = s) ∧
    (now - E.timestamp < W →
      (readStatus W s now).1.ate = true ∧
      (readStatus W s now).1.status_changed = false) ∧
    (W ≤ now - E.timestamp →
      (readStatus W s now).1.ate = false ∧
      (readStatus W s now).1.status_changed = true ∧
      (readStatus W s now).1.last_meal_timestamp = some E.timestamp ∧
      (readStatus W s now).1.time_since_last_meal = now - E.timestamp) := by
  unfold readStatus deriveStatus
  rw [hE]
  refine ⟨rfl, ?_, ?_⟩
  · intro h
    simp [hate, h]
  · intro h
    simp [hate, Nat.not_lt.mpr h]

/-- Concrete instantiation of the auto-expiry theorem: a single ate-event at
time 0 read at time 100 with a three-hour window is still reported eaten, and
read at time 10800 it is reported expired. -/
theorem statusDeriver_autoExpire_spec_witness :
    ((readStatus 10800 ⟨[⟨1, true, 0⟩]⟩ 100).1.ate = true ∧
     (readStatus 10800 ⟨[⟨1, true, 0⟩]⟩ 100).1.status_changed = false) ∧
    ((readStatus 10800 ⟨[⟨1, true, 0⟩]⟩ 10800).1.ate = false ∧
     (readStatus 10800 ⟨[⟨1, true, 0⟩]⟩ 10800).1.status_changed = true ∧
     (readStatus 10800 ⟨[⟨1, true, 0⟩]⟩ 10800).1.last_meal_timestamp = some 0 ∧
     (readStatus 10800 ⟨[⟨1, true, 0⟩]⟩ 10800).1.time_since_last_meal =
       10800 - 0) :=
  ⟨(statusDeriver_autoExpire_spec 10800 ⟨[⟨1, true, 0⟩]⟩ ⟨1, true, 0⟩ 100
      (by rfl) (by rfl)).2.1 (by decide),
   (statusDeriver_autoExpire_spec 10800 ⟨[⟨1, true, 0⟩]⟩ ⟨1, true, 0⟩ 10800
      (by rfl) (by rfl)).2.2 (by decide)⟩

/-- C2: completing login with a verified identity whose email differs, under
normalized case-insensitive comparison, from the configured allowed email
yields AuthorizationDenied -- an error distinct from the authentication
failure -- and no session; a session result forces the emails to match. -/
theorem completeLogin_allowlist_spec (allowed : String) (ident : Identity)
    (now ttl : Nat) :
    (normalizeEmail ident.email ≠ normalizeEmail allowed →
      completeLogin allowed ident now ttl =
        Except.error ApiError.authorizationDenied) ∧
    (∀ s, completeLogin allowed ident now ttl = Except.ok s →
      normalizeEmail ident.email = normalizeEmail allowed) ∧
    ApiError.authorizationDenied ≠ ApiError.authenticationRequired := by
  refine ⟨?_, ?_, by decide⟩
  · intro h
    simp [completeLogin, h]
  · intro s hs
    by_cases h : normalizeEmail ident.email = normalizeEmail allowed
    · exact h
    · simp [completeLogin, h] at hs

/-- Concrete instantiation: a wrong verified email, in any casing, is denied
authorization and never granted a session. -/
theorem completeLogin_allowlist_spec_witness :
    completeLogin ("a@b.c") ⟨("X@y.z"), ("Guest")⟩ 0 3600 =
      Except.error ApiError.authorizationDenied :=
  (completeLogin_allowlist_spec ("a@b.c") ⟨("X@y.z"), ("Guest")⟩ 0 3600).1
    (by decide)

/-- C3: an event-mutating call (append via POST /meals, delete via DELETE
/meals/id) made without a valid authenticated session returns
AuthenticationRequired and leaves the whole server state -- event store
included -- exactly as it was: no partial writes. -/
theorem mutation_requires_session_spec (s : ServerState) (tok : Option Nat)
    (now : Nat) (ate : Bool) (ts : Option Nat) (id : Nat)
    (h : ∀ sess, requireAuthenticated s.gate tok now ≠ Except.ok sess) :
    (postMeals s tok now ate ts).1 =
      Except.error ApiError.authenticationRequired ∧
    (postMeals s tok now ate ts).2 = s ∧
    (deleteMeals s tok now id).1 =
      Except.error ApiError.authenticationRequired ∧
    (deleteMeals s tok now id).2 = s := by
  cases hr : requireAuthenticated s.gate tok now with
  | ok sess => exact absurd hr (h sess)
  | error e =>
      have he : e = ApiError.authenticationRequired :=
        requireAuthenticated_error_kind s.gate tok now e hr
      subst he
      unfold postMeals deleteMeals
      rw [hr]
      exact ⟨rfl, rfl, rfl, rfl⟩

/-- Concrete instantiation: with no token and an empty gate, POST /meals and
DELETE /meals/7 are refused and the state is untouched. -/
theorem mutation_requires_session_spec_witness :
    (postMeals ⟨⟨[]⟩, ⟨[]⟩, 0⟩ none 0 true none).1 =
      Except.error ApiError.authenticationRequired ∧
    (postMeals ⟨⟨[]⟩, ⟨[]⟩, 0⟩ none 0 true none).2 = ⟨⟨[]⟩, ⟨[]⟩, 0⟩ ∧
    (deleteMeals ⟨⟨[]⟩, ⟨[]⟩, 0⟩ none 0 7).1 =
      Except.error ApiError.authenticationRequired ∧
    (deleteMeals ⟨⟨[]⟩, ⟨[]⟩, 0⟩ none 0 7).2 = ⟨⟨[]⟩, ⟨[]⟩, 0⟩ :=
  mutation_requires_session_spec ⟨⟨[]⟩, ⟨[]⟩, 0⟩ none 0 true none 7
    (fun sess hok => by simp [requireAuthenticated] at hok)

/-- C5: an authenticated append resolves an omitted timestamp to the current
time, stores a caller-supplied timestamp verbatim (past or future alike), and
returns the created event, which is appended to the store. -/
theorem append_resolved_timestamp_spec (s : ServerState) (tok : Option Nat)
    (now : Nat) (ate : Bool) (ts : Option Nat) (sess : Session)
    (h : requireAuthenticated s.gate tok now = Except.ok sess) :
    ∃ e : MealEvent,
      (postMeals s tok now ate ts).1 = Except.ok e ∧
      e.ate = ate ∧
      (ts = none → e.timestamp = now) ∧
      (∀ t, ts = some t → e.timestamp = t) ∧
      (postMeals s tok now ate ts).2.store.events = s.store.events ++ [e] := by
  refine ⟨{ id := s.nextId, ate := ate, timestamp := ts.getD now },
    ?_, rfl, ?_, ?_, ?_⟩
  · unfold postMeals
    rw [h]
    rfl
  · intro hts
    subst hts
    rfl
  · intro t hts
    subst hts
    rfl
  · unfold postMeals
    rw [h]
    rfl

/-- Concrete instantiation: with a live session, an append with an omitted
timestamp resolves to now = 5, and an append with supplied timestamp 99 (in
the past of now = 5) stores 99 verbatim. -/
theorem append_resolved_timestamp_spec_witness :
    (∃ e : MealEvent,
      (postMeals ⟨⟨[(1, ⟨⟨"a@b.c", "Admin"⟩, 0, 1000⟩)]⟩, ⟨[]⟩, 0⟩
          (some 1) 5 true none).1 = Except.ok e ∧
      e.ate = true ∧
      ((none : Option Nat) = none → e.timestamp = 5) ∧
      (∀ t, (none : Option Nat) = some t → e.timestamp = t) ∧
      (postMeals ⟨⟨[(1, ⟨⟨"a@b.c", "Admin"⟩, 0, 1000⟩)]⟩, ⟨[]⟩, 0⟩
          (some 1) 5 true none).2.store.events = [] ++ [e]) ∧
    (∃ e : MealEvent,
      (postMeals ⟨⟨[(1, ⟨⟨"a@b.c", "Admin"⟩, 0, 1000⟩)]⟩, ⟨[]⟩, 0⟩
          (some 1) 5 true (some 99)).1 = Except.ok e ∧
      e.ate = true ∧
      (some 99 = none → e.timestamp = 5) ∧
      (∀ t, some 99 = some t → e.timestamp = t) ∧
      (postMeals ⟨⟨[(1, ⟨⟨"a@b.c", "Admin"⟩, 0, 1000⟩)]⟩, ⟨[]⟩, 0⟩
          (some 1) 5 true (some 99)).2.store.events = [] ++ [e]) :=
  ⟨append_resolved_timestamp_spec
      ⟨⟨[(1, ⟨⟨"a@b.c", "Admin"⟩, 0, 1000⟩)]⟩, ⟨[]⟩, 0⟩ (some 1) 5 true none
      ⟨⟨"a@b.c", "Admin"⟩, 0, 1000⟩ (by rfl),
   append_resolved_timestamp_spec
      ⟨⟨[(1, ⟨⟨"a@b.c", "Admin"⟩, 0, 1000⟩)]⟩, ⟨[]⟩, 0⟩ (some 1) 5 true
      (some 99) ⟨⟨"a@b.c", "Admin"⟩, 0, 1000⟩ (by rfl)⟩

/-- C6: deleting an id that is not present in the Event Store returns
NotFound and the store -- contents and hence event count -- is unchanged. -/
theorem delete_notFound_spec (st : Store) (id : Nat)
    (h : st.events.any (fun e => e.id == id) = false) :
    (deleteEvent st id).1 = Except.error ApiError.notFound ∧
    (deleteEvent st id).2 = st ∧
    (deleteEvent st id).2.events.length = st.events.length := by
  unfold deleteEvent
  simp [h]

/-- Concrete instantiation: deleting id 2 from a store holding only id 1. -/
theorem delete_notFound_spec_witness :
    (deleteEvent ⟨[⟨1, true, 0⟩]⟩ 2).1 = Except.error ApiError.notFound ∧
    (deleteEvent ⟨[⟨1, true, 0⟩]⟩ 2).2 = ⟨[⟨1, true, 0⟩]⟩ ∧
    (deleteEvent ⟨[⟨1, true, 0⟩]⟩ 2).2.events.length =
      [MealEvent.mk 1 true 0].length :=
  delete_notFound_spec ⟨[⟨1, true, 0⟩]⟩ 2 (by decide)

/-- C7: logout is idempotent -- applying it twice to any gate state with any
token produces the same resulting state and the same success outcome as
applying it once. -/
theorem logout_idempotent_spec (g : GateState) (tok : Nat) :
    logout (logout g tok).2 tok = logout g tok := by
  unfold logout
  simp [List.filter_filter]

/-- An Allowed outcome at the head adds one to the allowed count. -/
theorem countAllowed_cons_allowed (r l i : Nat) (rs : List AttemptResult) :
    countAllowed (AttemptResult.allowed r l i :: rs) = countAllowed rs + 1 := by
  simp [countAllowed]

/-- A Denied outcome at the head leaves the allowed count unchanged. -/
theorem countAllowed_cons_denied (ra : Nat) (rs : List AttemptResult) :
    countAllowed (AttemptResult.denied ra :: rs) = countAllowed rs := by
  simp [countAllowed]

/-- Within one live window that started at t with current count c, a sequence
of attempts all issued before the window closes yields exactly
min (number of attempts) (limit - c) Allowed outcomes. -/
theorem countAllowed_attemptSeq_within (cfg : LimiterConfig) (t : Nat) :
    ∀ (ts : List Nat) (c : Nat), (∀ u ∈ ts, u < t + cfg.window) →
      countAllowed (attemptSeq cfg (some ⟨t, c⟩) ts).1 =
        min ts.length (cfg.limit - c) := by
  intro ts
  induction ts with
  | nil =>
      intro c _
      simp [attemptSeq, countAllowed]
  | cons u us ih =>
      intro c h
      have hu : u < t + cfg.window := h u (List.mem_cons_self u us)
      have hus : ∀ v ∈ us, v < t + cfg.window :=
        fun v hv => h v (List.mem_cons_of_mem u hv)
      by_cases hc : c < cfg.limit
      · simp only [attemptSeq, attempt, if_neg (Nat.not_le.mpr hu), if_pos hc]
        rw [countAllowed_cons_allowed, ih (c + 1) hus]
        simp only [List.length_cons]
        omega
      · simp only [attemptSeq, attempt, if_neg (Nat.not_le.mpr hu), if_neg hc]
        rw [countAllowed_cons_denied, ih c hus]
        simp only [List.length_cons]
        omega

/-- C4: with limit 5 and a 3600-second window, starting fresh: five attempts
within the window are allowed with remaining 4, 3, 2, 1, 0; the sixth in the
same window is denied with retry_after the whole seconds left until the
window closes, positive and at most 3600; the first attempt after the window
has elapsed is allowed again with remaining 4. -/
theorem rateLimiter_quota_sequence_spec (t0 t1 t2 t3 t4 t5 t6 : Nat)
    (h0 : t0 ≤ t5)
    (h1 : t1 < t0 + 3600) (h2 : t2 < t0 + 3600) (h3 : t3 < t0 + 3600)
    (h4 : t4 < t0 + 3600) (h5 : t5 < t0 + 3600)
    (h6 : t0 + 3600 ≤ t6) :
    (attemptSeq ⟨5, 3600⟩ none [t0, t1, t2, t3, t4, t5, t6]).1 =
      [AttemptResult.allowed 4 5 3600,
       AttemptResult.allowed 3 5 (t0 + 3600 - t1),
       AttemptResult.allowed 2 5 (t0 + 3600 - t2),
       AttemptResult.allowed 1 5 (t0 + 3600 - t3),
       AttemptResult.allowed 0 5 (t0 + 3600 - t4),
       AttemptResult.denied (t0 + 3600 - t5),
       AttemptResult.allowed 4 5 3600] ∧
    0 < t0 + 3600 - t5 ∧ t0 + 3600 - t5 ≤ 3600 := by
  refine ⟨?_, by omega, by omega⟩
  simp [attemptSeq, attempt, Nat.not_le.mpr h1, Nat.not_le.mpr h2,
    Nat.not_le.mpr h3, Nat.not_le.mpr h4, Nat.not_le.mpr h5, h6]

/-- Concrete instantiation: attempts at seconds 0, 1, 2, 3, 4, 5 and 3600. -/
theorem rateLimiter_quota_sequence_spec_witness :
    (attemptSeq ⟨5, 3600⟩ none [0, 1, 2, 3, 4, 5, 3600]).1 =
      [AttemptResult.allowed 4 5 3600,
       AttemptResult.allowed 3 5 (0 + 3600 - 1),
       AttemptResult.allowed 2 5 (0 + 3600 - 2),
       AttemptResult.allowed 1 5 (0 + 3600 - 3),
       AttemptResult.allowed 0 5 (0 + 3600 - 4),
       AttemptResult.denied (0 + 3600 - 5),
       AttemptResult.allowed 4 5 3600] ∧
    0 < 0 + 3600 - 5 ∧ 0 + 3600 - 5 ≤ 3600 :=
  rateLimiter_quota_sequence_spec 0 1 2 3 4 5 3600 (by decide) (by decide)
    (by decide) (by decide) (by decide) (by decide) (by decide)

/-- C8: for any number of attempts from the same caller issued inside one
window -- any interleaving of concurrent attempts is some such sequence,
because each check-and-increment is one atomic transition -- the number of
Allowed outcomes is min (attempts, limit): never more than limit, and exactly
limit once at least limit attempts are made. -/
theorem rateLimiter_boundary_exact_limit_spec (cfg : LimiterConfig) (t : Nat)
    (ts : List Nat) (hlim : 0 < cfg.limit)
    (hw : ∀ u ∈ ts, u < t + cfg.window) :
    countAllowed (attemptSeq cfg none (t :: ts)).1 =
      min (ts.length + 1) cfg.limit ∧
    (cfg.limit ≤ ts.length + 1 →
      countAllowed (attemptSeq cfg none (t :: ts)).1 = cfg.limit) := by
  have hstep : (attemptSeq cfg none (t :: ts)).1 =
      AttemptResult.allowed (cfg.limit - 1) cfg.limit cfg.window ::
        (attemptSeq cfg (some ⟨t, 1⟩) ts).1 := rfl
  rw [hstep, countAllowed_cons_allowed,
    countAllowed_attemptSeq_within cfg t ts 1 hw]
  exact ⟨by omega, fun h => by omega⟩

/-- Concrete instantiation: seven attempts inside one window with limit 5
produce exactly five Allowed outcomes. -/
theorem rateLimiter_boundary_exact_limit_spec_witness :
    countAllowed (attemptSeq ⟨5, 3600⟩ none (0 :: [1, 2, 3, 4, 5, 6])).1 =
      min ([1, 2, 3, 4, 5, 6].length + 1) 5 ∧
    (5 ≤ [1, 2, 3, 4, 5, 6].length + 1 →
      countAllowed (attemptSeq ⟨5, 3600⟩ none (0 :: [1, 2, 3, 4, 5, 6])).1 =
        5) :=
  rateLimiter_boundary_exact_limit_spec ⟨5, 3600⟩ 0 [1, 2, 3, 4, 5, 6]
    (by decide) (by decide)

/-- C9: the dispatcher is handed a message only when the limiter allowed the
attempt, and an empty or absent caller message is replaced by the default
text; the frontend payload rule performs the same substitution. -/
theorem dispatcher_default_text_spec (cfg : LimiterConfig)
    (st : Option RateLimitWindow) (now : Nat) (msg : Option String) :
    (∀ m, (remind cfg st now msg).1.2 = some m →
      ∃ r l i, (attempt cfg st now).1 = AttemptResult.allowed r l i) ∧
    ((msg = none ∨ msg = some ("")) →
      ∀ r l i, (attempt cfg st now).1 = AttemptResult.allowed r l i →
        (remind cfg st now msg).1.2 = some defaultReminderText) ∧
    reminderPayloadMessage ("") = defaultReminderText := by
  refine ⟨?_, ?_, by simp [reminderPayloadMessage]⟩
  · intro m hm
    cases ha : (attempt cfg st now).1 with
    | denied retry =>
        simp [remind, ha] at hm
    | allowed r l i =>
        exact ⟨r, l, i, rfl⟩
  · intro hmsg r l i ha
    have hget : msg.getD ("") = ("") := by
      rcases hmsg with h | h
      · subst h
        rfl
      · subst h
        rfl
    simp [remind, ha, composeMessage, hget]

/-- Concrete instantiation: a fresh limiter allows the attempt and an empty
message is dispatched as the default text. -/
theorem dispatcher_default_text_spec_witness :
    (remind ⟨5, 3600⟩ none 0 (some (""))).1.2 = some defaultReminderText :=
  (dispatcher_default_text_spec ⟨5, 3600⟩ none 0 (some (""))).2.1
    (Or.inr rfl) 4 5 3600 (by rfl)

/-- C10 counterexample: a quota-denial response carrying retry_after = 0 is
presented as a 60-second wait, not as the server-supplied 0: the JavaScript
or-operator in frontend/src/App.js treats a present 0 as falsy. -/
theorem retryAfter_present_claim_counterexample :
    displayedRetryAfter (some 0) = 60 ∧ (60 : Nat) ≠ 0 :=
  ⟨rfl, by decide⟩

/-- C10 amended: the frontend presents a 60-second wait when retry_after is
absent or zero (JavaScript falsy), and presents the server-supplied value
whenever the field is present and positive. -/
theorem retryAfter_display_amended_spec (v : Nat) :
    displayedRetryAfter none = 60 ∧
    displayedRetryAfter (some 0) = 60 ∧
    (0 < v → displayedRetryAfter (some v) = v) := by
  refine ⟨rfl, rfl, ?_⟩
  intro hv
  simp [displayedRetryAfter, Nat.pos_iff_ne_zero.mp hv]

/-- Concrete instantiation: a server-supplied positive retry_after of 7 is
presented unchanged. -/
theorem retryAfter_display_amended_spec_witness :
    displayedRetryAfter (some 7) = 7 :=
  (retryAfter_display_amended_spec 7).2.2 (by decide)
